import Mathlib

/-!
Verification of the two-stage enrichment pipeline of `src/web_app.py`
(company-registry lookup → prompt construction → LLM summarization →
response shaping), as a shallow embedding in Lean.

Modelling conventions:
* Python/JSON values are modelled by `Json` below.  `json` decoding maps
  JSON `null` to Python `None`; we conflate the two as `Json.null`.
  JSON numbers are modelled as integers (the registry status codes and the
  fields exercised here are integral); floats are not modelled.
* `os.environ.get` results are `Option String` (`none` = unset variable).
* The two outbound providers are oracles: `HttpResult` describes what the
  `requests.get`/`raise_for_status`/`response.json()` sequence does, and
  `GenOutcome` describes what `client.chat.completions.create` does.
* Python exceptions are modelled with `Except PyExc`; `PyExc.isReqExc`
  records whether the exception is a `requests.exceptions.RequestException`.
  `response.json()` on a non-JSON body raises
  `requests.exceptions.JSONDecodeError`, which (requests ≥ 2.27) is a
  subclass of `RequestException`, hence `isReqExc = true` for it.
* `print(...)` diagnostics are collected in a `List String` log.
-/

/-- JSON/Python values as handled by the pipeline. -/
inductive Json where
  | null
  | bool (b : Bool)
  | num (n : Int)
  | str (s : String)
  | arr (xs : List Json)
  | obj (kvs : List (String × Json))

/-- Python truthiness (`bool(x)`): `None`, `False`, `0`, `""`, `[]`,
`\x7b\x7d` are falsy, everything else truthy. -/
def pyFalsy : Json → Bool
  | .null => true
  | .bool b => !b
  | .num n => n == 0
  | .str s => s.isEmpty
  | .arr xs => xs.isEmpty
  | .obj kvs => kvs.isEmpty

/-- Truthiness of an `os.environ.get` result: falsy iff unset or empty. -/
def optStrFalsy : Option String → Bool
  | none => true
  | some s => s.isEmpty

/-- Lookup in a JSON object (first matching key), `Json.null` when absent:
models Python `dict.get(k)` (absent key and stored `null` both give `None`).
Only ever applied to objects in the pipeline. -/
def jget : Json → String → Json
  | .obj kvs, k =>
    match kvs.find? (fun p => p.1 == k) with
    | some p => p.2
    | none => .null
  | _, _ => .null

mutual
/-- Python `str(x)` as used in f-string interpolation.  (For `arr`/`obj`
arguments `repr` quoting of strings is modelled without escape handling;
the pipeline only ever reaches those cases with non-string inputs.) -/
def pyStr : Json → String
  | .null => "None"
  | .bool true => "True"
  | .bool false => "False"
  | .num n => toString n
  | .str s => s
  | .arr xs => "[" ++ String.intercalate ", " (pyReprList xs) ++ "]"
  | .obj kvs => "\x7b" ++ String.intercalate ", " (pyReprPairs kvs) ++ "\x7d"

/-- Python `repr(x)` for values inside containers. -/
def pyRepr : Json → String
  | .null => "None"
  | .bool true => "True"
  | .bool false => "False"
  | .num n => toString n
  | .str s => "\x27" ++ s ++ "\x27"
  | .arr xs => "[" ++ String.intercalate ", " (pyReprList xs) ++ "]"
  | .obj kvs => "\x7b" ++ String.intercalate ", " (pyReprPairs kvs) ++ "\x7d"

def pyReprList : List Json → List String
  | [] => []
  | x :: xs => pyRepr x :: pyReprList xs

def pyReprPairs : List (String × Json) → List String
  | [] => []
  | (k, v) :: kvs => ("\x27" ++ k ++ "\x27: " ++ pyRepr v) :: pyReprPairs kvs
end

/-- Python `x == 0` for a decoded JSON value (`True == 1`, `False == 0`,
`None == 0` is `False`).  Models the `data.get("error_code") == 0` test. -/
def pyEqInt (j : Json) (n : Int) : Bool :=
  match j with
  | .num m => m == n
  | .bool b => (if b then (1 : Int) else 0) == n
  | _ => false

/-- The fixed registry endpoint (`TIANYANCHA_API_URL` in the source). -/
def TIANYANCHA_API_URL : String :=
  "http://open.api.tianyancha.com/services/open/ic/baseinfoV3/2.0"

/-- One hex digit, upper case, as `urllib.parse.quote` emits. -/
def hexDigit (n : Nat) : String :=
  String.singleton (if n < 10 then Char.ofNat (48 + n) else Char.ofNat (55 + n))

/-- `urllib.parse.quote_plus` on one UTF-8 byte. -/
def quotePlusByte (b : UInt8) : String :=
  let n := b.toNat
  if (48 ≤ n ∧ n ≤ 57) ∨ (65 ≤ n ∧ n ≤ 90) ∨ (97 ≤ n ∧ n ≤ 122) ∨
      n = 95 ∨ n = 46 ∨ n = 45 ∨ n = 126 then
    String.singleton (Char.ofNat n)
  else if n = 32 then "+"
  else "%" ++ hexDigit (n / 16) ++ hexDigit (n % 16)

/-- `urllib.parse.quote_plus`: percent-encode the UTF-8 bytes, space → `+`. -/
def quotePlus (s : String) : String :=
  String.join (s.toUTF8.toList.map quotePlusByte)

/-- The URL built in `get_company_info_from_tianyancha`. -/
def tianyanchaUrl (company_name : String) : String :=
  TIANYANCHA_API_URL ++ "?keyword=" ++ quotePlus company_name

/-- `needle` is a prefix of `hay` (on character lists). -/
def listPref : List Char → List Char → Bool
  | [], _ => true
  | _ :: _, [] => false
  | a :: as, b :: bs => a == b && listPref as bs

/-- `needle` occurs contiguously somewhere in `hay`. -/
def containsSub (hay needle : List Char) : Bool :=
  match hay with
  | [] => listPref needle []
  | _ :: t => listPref needle hay || containsSub t needle

/-- `needle` occurs contiguously somewhere in `hay`, on strings. -/
def strContains (hay needle : String) : Bool :=
  containsSub hay.data needle.data

/-- Python `s.startswith(pre)`. -/
def pyStartsWith (s pre : String) : Bool :=
  listPref pre.data s.data

/-- A Python exception; `isReqExc` marks
`requests.exceptions.RequestException` (and its subclasses). -/
structure PyExc where
  isReqExc : Bool
  msg : String
deriving DecidableEq, Repr

/-- The body of a 2xx registry response. -/
inductive BodyResult where
  /-- Body is not valid JSON: `response.json()` raises
  `requests.exceptions.JSONDecodeError` with message `m`. -/
  | invalid (m : String)
  /-- Body decodes to the JSON value `j`. -/
  | valid (j : Json)

/-- What the registry transport did for one request. -/
inductive HttpResult where
  /-- `requests.get` raised (connection failure / timeout), or
  `raise_for_status` raised `HTTPError` on a non-2xx status; both are
  `RequestException`s carrying message `m`. -/
  | netError (m : String)
  /-- Transport succeeded with a 2xx response carrying this body. -/
  | ok (body : BodyResult)

/-- The `try:` body of `get_company_info_from_tianyancha`: issue the GET,
`raise_for_status`, decode, test `error_code`, and either return
`data.get("result")` or print the provider reason and return `None`.
Result: `(returned value, printed log lines)`. -/
def tianyanchaBody (resp : HttpResult) : Except PyExc (Json × List String) :=
  match resp with
  | .netError m => .error ⟨true, m⟩
  | .ok (.invalid m) => .error ⟨true, m⟩
  | .ok (.valid data) =>
    if pyEqInt (jget data "error_code") 0 then
      .ok (jget data "result", [])
    else
      .ok (.null, ["Tianyancha API Error: " ++ pyStr (jget data "reason")])

/-- `get_company_info_from_tianyancha(company_name)` given transport
behaviour `resp`: the `except requests.exceptions.RequestException` clause
catches exactly the `isReqExc` exceptions, prints, and returns `None`;
any other exception would propagate (`.error`). -/
def get_company_info_from_tianyancha (company_name : Json) (resp : HttpResult) :
    Except PyExc (Json × List String) :=
  let _url := tianyanchaUrl (pyStr company_name)
  match tianyanchaBody resp with
  | .ok r => .ok r
  | .error e =>
    if e.isReqExc then
      .ok (.null, ["Tianyancha request failed: " ++ e.msg])
    else
      .error e

def promptSeg0 : String :=
  "\n        你是一位顶级的商业分析专家。你的任务是根据提供的企业JSON数据，生成一份专业、精炼且易于阅读的企业分析报告。\n\n        **严格遵循以下HTML格式和要求进行输出，不要有任何额外解释：**\n\n        **当前年份：2025年**\n\n        <div id=\"report\">\n            <div class=\"report-section\">\n                <h3>企业速览：关键信息一目了然</h3>\n                <p>\n                    🏢 **公司名称**: "

def promptSeg1 : String :=
  " | \n                    📆 **成立年限**: 根据成立日期（estiblishTime）和当前年份（2025）计算，例如“成立13年” | \n                    👨‍⚖️ **法定代表人**: "

def promptSeg2 : String :=
  "\n                </p>\n                <p>\n                    💼 **注册资本**: "

def promptSeg3 : String :=
  " | \n                    📈 **经营状态**: "

def promptSeg4 : String :=
  "\n                </p>\n                <p>📍 **注册地址**: "

def promptSeg5 : String :=
  "</p>\n                <p>⚖️ **行业性质**: "

def promptSeg6 : String :=
  "</p>\n            </div>\n            <div class=\"report-section\">\n                <h3>🏭 经营概况</h3>\n                <ul>\n                    <li><strong>持续经营</strong>：根据成立日期（estiblishTime）和当前年份（2025）计算运营年限，并描述其运营历史。</li>\n                    <li><strong>业务聚焦</strong>：总结\x60businessScope\x60字段中的核心业务。</li>\n                    <li><strong>架构精简</strong>：根据对外投资、分支机构等数据（如果为0或null），判断并说明其组织架构是否精简明晰。</li>\n                </ul>\n            </div>\n            <div class=\"report-section\">\n                <h3>📊 经营状况</h3>\n                <ul>\n                    <li><strong>风险可控</strong>：总结司法案件、涉诉关系等法律风险。如果数据为0或null，明确指出“当前无公开的法律纠纷记录”。</li>\n                    <li><strong>创新储备</strong>：分析知识产权（商标\x60tmNum\x60、专利\x60patentNum\x60）情况。如果为零，指出其创新储备尚未展开。</li>\n                    <li><strong>⚠️ 数据缺失</strong>：检查\x60socialStaffNum\x60（社保人数）、\x60actualCapital\x60（实缴资本）等字段，如果为空或null，明确指出“关键财务信息未公示”。</li>\n                </ul>\n            </div>\n            <div class=\"report-section\">\n                <h3>⚠️ 风险提示</h3>\n                <ul>\n                    <li><strong>合规记录</strong>：总结立案信息、开庭公告等风险指标。如果无，则说明“合规记录良好”。</li>\n                    <li><strong>稳定性强</strong>：分析工商变更记录（\x60changeCount\x60），如果数量少或为0，则说明“工商登记信息保持稳定”。</li>\n                </ul>\n            </div>\n            <div class=\"report-section\">\n                <h3>🔍 关注焦点预测</h3>\n                <ul>\n                    <li><strong>经营健康度</strong>：指出财务数据缺失可能对合作评估产生的影响。</li>\n                    <li><strong>业务持续性</strong>：对长期的案件记录进行综合研判。</li>\n                    <li><strong>专业资质</strong>：提示报告中未包含的核心信息，如团队构成等，有待补充。</li>\n                </ul>\n            </div>\n            <p><small>💡 注：本报告基于公开数据生成，与实体运营可能存在差异，建议结合行业特性深入尽调。</small></p>\n        </div>\n        "

def sysMsgContent : String :=
  "你是一位顶级的商业分析专家，严格按照用户指令生成格式化的HTML报告。"


/-- One hex digit, lower case, as Python `\uXXXX` escapes use. -/
def hexDigitLower (n : Nat) : String :=
  String.singleton (if n < 10 then Char.ofNat (48 + n) else Char.ofNat (87 + n))

/-- One character of Python `json.dumps` string escaping (`ensure_ascii=False`:
only `"`, `\` and control characters are escaped). -/
def jsonEscapeChar (c : Char) : String :=
  if c = '"' then "\\\""
  else if c = '\\' then "\\\\"
  else if c = '\n' then "\\n"
  else if c = '\t' then "\\t"
  else if c = '\r' then "\\r"
  else if c.toNat = 8 then "\\b"
  else if c.toNat = 12 then "\\f"
  else if c.toNat < 32 then
    "\\u00" ++ hexDigitLower (c.toNat / 16) ++ hexDigitLower (c.toNat % 16)
  else String.singleton c

/-- `json.dumps` string escaping applied to a whole string. -/
def jsonEscape (s : String) : String :=
  String.join (s.data.map jsonEscapeChar)

/-- `2 * lvl` spaces: the indentation prefix `json.dumps(..., indent=2)`
puts before an element nested at depth `lvl`. -/
def jsonPad (lvl : Nat) : String :=
  String.mk (List.replicate (2 * lvl) ' ')

mutual
/-- `json.dumps(j, ensure_ascii=False, indent=2)` on the value `j` nested at
depth `lvl` (with `indent` set, the separators are `","` and `": "`). -/
def dumpsAt : Nat → Json → String
  | _, .null => "null"
  | _, .bool true => "true"
  | _, .bool false => "false"
  | _, .num n => toString n
  | _, .str s => "\"" ++ jsonEscape s ++ "\""
  | _, .arr [] => "[]"
  | lvl, .arr (x :: xs) =>
    "[\n" ++ String.intercalate ",\n" (dumpsItems (lvl + 1) (x :: xs)) ++
      "\n" ++ jsonPad lvl ++ "]"
  | _, .obj [] => "\x7b\x7d"
  | lvl, .obj (kv :: kvs) =>
    "\x7b\n" ++ String.intercalate ",\n" (dumpsPairs (lvl + 1) (kv :: kvs)) ++
      "\n" ++ jsonPad lvl ++ "\x7d"

def dumpsItems : Nat → List Json → List String
  | _, [] => []
  | lvl, x :: xs => (jsonPad lvl ++ dumpsAt lvl x) :: dumpsItems lvl xs

def dumpsPairs : Nat → List (String × Json) → List String
  | _, [] => []
  | lvl, (k, v) :: kvs =>
    (jsonPad lvl ++ "\"" ++ jsonEscape k ++ "\": " ++ dumpsAt lvl v) ::
      dumpsPairs lvl kvs
end

/-- `json.dumps(company_info, ensure_ascii=False, indent=2)`: the
`formatted_info` serialization computed in `summarize_info_with_deepseek`. -/
def jsonDumps (j : Json) : String :=
  dumpsAt 0 j

/-- `company_info.get(k, 'N/A')` followed by f-string (`str`) formatting:
the value interpolated into one slot of the prompt template. -/
def getSlot (company_info : Json) (k : String) : String :=
  match company_info with
  | .obj kvs =>
    match kvs.find? (fun p => p.1 == k) with
    | some p => pyStr p.2
    | none => "N/A"
  | _ => "N/A"

/-- The Python type name, as it appears in `AttributeError` messages. -/
def pyTypeName : Json → String
  | .null => "NoneType"
  | .bool _ => "bool"
  | .num _ => "int"
  | .str _ => "str"
  | .arr _ => "list"
  | .obj _ => "dict"

/-- Message of the `AttributeError` raised by `company_info.get(...)` when
`company_info` is not a dict. -/
def attrErrMsg (company_info : Json) : String :=
  "\x27" ++ pyTypeName company_info ++ "\x27 object has no attribute \x27get\x27"

/-- The `prompt` f-string of `summarize_info_with_deepseek`: the fixed
template with the six `company_info.get(...)` slots interpolated.  The
`formatted_info` JSON serialization appears in none of the segments. -/
def buildPrompt (company_info : Json) : String :=
  promptSeg0 ++ getSlot company_info "name" ++
  promptSeg1 ++ getSlot company_info "legalPersonName" ++
  promptSeg2 ++ getSlot company_info "regCapital" ++
  promptSeg3 ++ getSlot company_info "regStatus" ++
  promptSeg4 ++ getSlot company_info "regLocation" ++
  promptSeg5 ++ getSlot company_info "industry" ++
  promptSeg6

/-- One message of the chat-completion request. -/
structure ChatMessage where
  role : String
  content : String
deriving DecidableEq, Repr

/-- The request passed to `client.chat.completions.create`. -/
structure ChatRequest where
  model : String
  messages : List ChatMessage
  stream : Bool
deriving DecidableEq, Repr

/-- The completion request built by `summarize_info_with_deepseek`. -/
def chatRequest (company_info : Json) : ChatRequest :=
  { model := "deepseek-chat"
    messages := [⟨"system", sysMsgContent⟩, ⟨"user", buildPrompt company_info⟩]
    stream := false }

/-- What `client.chat.completions.create` did for one call. -/
inductive GenOutcome where
  /-- The call raised an exception whose `str()` is `m` (network failure,
  provider rejection, malformed response, ...). -/
  | raise (m : String)
  /-- The call returned; `content` is `response.choices[0].message.content`. -/
  | reply (content : String)

/-- `summarize_info_with_deepseek(company_info)` given completion-call
behaviour `gen`.  Returns `(return value, request issued if any, printed
log lines)`.  When `company_info` is not a dict, `company_info.get(...)`
raises `AttributeError` while the prompt f-string is evaluated — before any
request is issued — and the broad `except Exception` turns it into the
`错误：` return value, like every other exception. -/
def summarize_info_with_deepseek (company_info : Json) (gen : GenOutcome) :
    String × Option ChatRequest × List String :=
  match company_info with
  | .obj _ =>
    let _formatted_info := jsonDumps company_info
    match gen with
    | .reply c => (c, some (chatRequest company_info), [])
    | .raise e =>
      ("错误：调用DeepSeek API时发生错误: " ++ e, some (chatRequest company_info),
        ["DeepSeek request failed: " ++ e])
  | _ =>
    let e := attrErrMsg company_info
    ("错误：调用DeepSeek API时发生错误: " ++ e, none,
      ["DeepSeek request failed: " ++ e])

/-- The stages of the pipeline that issue (or stand for) an outbound call. -/
inductive StageCall where
  | lookupCall
  | genCall
deriving DecidableEq, Repr

/-- The JSON envelope `analyze` returns: `jsonify({'error': msg})` or
`jsonify({'report': r})`. -/
inductive RespBody where
  | err (msg : String)
  | report (r : String)
deriving DecidableEq, Repr

/-- `jsonify(...)` body, HTTP status, the helper calls reached (in order),
and the printed log lines, for one `/analyze` request. -/
structure AnalyzeOut where
  status : Nat
  body : RespBody
  calls : List StageCall
  log : List String
deriving Repr

/-- `'服务器环境变量未正确配置，请联系管理员。'` -/
def envErrMsg : String := "服务器环境变量未正确配置，请联系管理员。"

/-- `'未提供公司名称。'` -/
def noNameMsg : String := "未提供公司名称。"

/-- Prefix of the lookup-failure message, before the company name. -/
def tycFailPre : String := "从天眼查获取“"

/-- Suffix of the lookup-failure message, after the company name. -/
def tycFailPost : String := "”的信息失败，请检查公司名称是否正确。"

/-- The `/analyze` handler, given the two environment values, the request's
`company_name` field (`Json.null` when absent from the posted JSON), and the
behaviour of the two providers.  `.error e` means an exception would
propagate out of the handler (never happens: every registry outcome is
caught, see `analyze_no_uncaught`). -/
def analyze (TIANYANCHA_TOKEN DEEPSEEK_API_KEY : Option String)
    (company_name : Json) (resp : HttpResult) (gen : GenOutcome) :
    Except PyExc AnalyzeOut :=
  if optStrFalsy TIANYANCHA_TOKEN || optStrFalsy DEEPSEEK_API_KEY then
    .ok ⟨500, .err envErrMsg, [], []⟩
  else if pyFalsy company_name then
    .ok ⟨400, .err noNameMsg, [], []⟩
  else
    match get_company_info_from_tianyancha company_name resp with
    | .error e => .error e
    | .ok (tyc_info, llog) =>
      if pyFalsy tyc_info then
        .ok ⟨404, .err (tycFailPre ++ pyStr company_name ++ tycFailPost),
          [.lookupCall], llog⟩
      else
        match summarize_info_with_deepseek tyc_info gen with
        | (report, _req, glog) =>
          if pyStartsWith report "错误：" then
            .ok ⟨500, .err report, [.lookupCall, .genCall], llog ++ glog⟩
          else
            .ok ⟨200, .report report, [.lookupCall, .genCall], llog ++ glog⟩

/-- The six values interpolated into the prompt template, in template order. -/
def promptSlots (company_info : Json) : List String :=
  [getSlot company_info "name", getSlot company_info "legalPersonName",
   getSlot company_info "regCapital", getSlot company_info "regStatus",
   getSlot company_info "regLocation", getSlot company_info "industry"]

/-- A concrete `BusinessRecord` used in counterexamples and witnesses. -/
def sampleRecord : Json :=
  .obj [("name", .str "甲"), ("extra", .str "乙")]

/-- A registry response: `error_code = 0` with `sampleRecord` as `result`. -/
def sampleOkResp : HttpResult :=
  .ok (.valid (.obj [("error_code", .num 0), ("result", sampleRecord)]))

/-- Registry response `error_code = 1` with the spec scenario's reason. -/
def respReasonA : HttpResult :=
  .ok (.valid (.obj [("error_code", .num 1), ("reason", .str "未查询到匹配结果")]))

/-- Registry response `error_code = 1` with a different reason. -/
def respReasonB : HttpResult :=
  .ok (.valid (.obj [("error_code", .num 1), ("reason", .str "系统繁忙")]))

/-! Helper lemmas about the substring predicates. -/

theorem listPref_self_append (n y : List Char) : listPref n (n ++ y) = true := by
  induction n with
  | nil => rfl
  | cons a as ih => simp [listPref, ih]

theorem containsSub_append (x n y : List Char) :
    containsSub (x ++ (n ++ y)) n = true := by
  induction x with
  | nil =>
    simp only [List.nil_append]
    cases hn : n ++ y with
    | nil =>
      rcases List.append_eq_nil.mp hn with ⟨h1, h2⟩
      subst h1
      subst h2
      rfl
    | cons a t =>
      simp only [containsSub]
      rw [← hn, listPref_self_append, Bool.true_or]
  | cons a as ih =>
    simp [List.cons_append, containsSub, ih]

theorem strContains_mid (a b c : String) : strContains (a ++ b ++ c) b = true := by
  simp only [strContains, String.data_append]
  have h := containsSub_append a.data b.data c.data
  simpa [List.append_assoc] using h

theorem listPref_append_of (p s t : List Char) (h : listPref p s = true) :
    listPref p (s ++ t) = true := by
  induction p generalizing s with
  | nil => rfl
  | cons a as ih =>
    cases s with
    | nil => exact absurd h (by simp [listPref])
    | cons b bs =>
      simp only [listPref, Bool.and_eq_true] at h ⊢
      exact ⟨h.1, ih bs h.2⟩

theorem pyStartsWith_append_left (a e pre : String)
    (h : listPref pre.data a.data = true) : pyStartsWith (a ++ e) pre = true := by
  simp only [pyStartsWith, String.data_append]
  exact listPref_append_of _ _ _ h

/-- The lookup stage never lets an exception escape: every transport
outcome is mapped to a returned value (`JSONDecodeError` and all transport
errors are `RequestException`s, which the `except` clause catches). -/
theorem tianyancha_no_uncaught (company_name : Json) (resp : HttpResult) :
    ∃ r, get_company_info_from_tianyancha company_name resp = .ok r := by
  cases resp with
  | netError m => exact ⟨(.null, ["Tianyancha request failed: " ++ m]), rfl⟩
  | ok body =>
    cases body with
    | invalid m => exact ⟨(.null, ["Tianyancha request failed: " ++ m]), rfl⟩
    | valid j =>
      by_cases h : pyEqInt (jget j "error_code") 0 = true
      · exact ⟨(jget j "result", []),
          by simp [get_company_info_from_tianyancha, tianyanchaBody, h]⟩
      · exact ⟨(.null, ["Tianyancha API Error: " ++ pyStr (jget j "reason")]),
          by simp [get_company_info_from_tianyancha, tianyanchaBody, h]⟩

/-- The `/analyze` handler never lets an exception escape. -/
theorem analyze_no_uncaught (tok dsk : Option String) (company_name : Json)
    (resp : HttpResult) (gen : GenOutcome) :
    ∃ out, analyze tok dsk company_name resp gen = .ok out := by
  by_cases hc : (optStrFalsy tok || optStrFalsy dsk) = true
  · exact ⟨⟨500, .err envErrMsg, [], []⟩, by simp [analyze, hc]⟩
  by_cases hn : pyFalsy company_name = true
  · exact ⟨⟨400, .err noNameMsg, [], []⟩, by simp [analyze, hc, hn]⟩
  obtain ⟨⟨info, llog⟩, hlk⟩ := tianyancha_no_uncaught company_name resp
  by_cases hi : pyFalsy info = true
  · exact ⟨⟨404, .err (tycFailPre ++ pyStr company_name ++ tycFailPost),
      [.lookupCall], llog⟩, by simp [analyze, hc, hn, hlk, hi]⟩
  rcases hsum : summarize_info_with_deepseek info gen with ⟨report, req, glog⟩
  by_cases hp : pyStartsWith report "错误：" = true
  · exact ⟨⟨500, .err report, [.lookupCall, .genCall], llog ++ glog⟩,
      by simp [analyze, hc, hn, hlk, hi, hsum, hp]⟩
  · exact ⟨⟨200, .report report, [.lookupCall, .genCall], llog ++ glog⟩,
      by simp [analyze, hc, hn, hlk, hi, hsum, hp]⟩

/-- Claim C9 (confirmed): if either required credential is unset, every
`/analyze` request — regardless of its `company_name`, including empty or
missing names — is answered with the 500 configuration-error response, no
outbound call is made (`calls = []`), and the handler returns normally
(`.ok`, never fatal to the process). -/
theorem claimC9 (tok dsk : Option String) (company_name : Json)
    (resp : HttpResult) (gen : GenOutcome) (h : tok = none ∨ dsk = none) :
    analyze tok dsk company_name resp gen =
      .ok ⟨500, .err envErrMsg, [], []⟩ := by
  have hc : (optStrFalsy tok || optStrFalsy dsk) = true := by
    rcases h with rfl | rfl
    · simp [optStrFalsy]
    · simp [optStrFalsy]
  simp [analyze, hc]

/-- Witness for C9: registry credential unset, company name empty — the
request still gets the 500 configuration response with no outbound call. -/
theorem claimC9_witness :
    analyze none (some "k") (.str "") sampleOkResp (.reply "R") =
      .ok ⟨500, .err envErrMsg, [], []⟩ :=
  claimC9 none (some "k") (.str "") sampleOkResp (.reply "R") (Or.inl rfl)

/-- Claim C2 — counterexample: a whitespace-only company name `"  "` is
truthy in Python, so `if not company_name` does NOT reject it: with both
credentials set the pipeline issues the lookup call (and then the
generation call) and answers 200, not 400.  This refutes the claim that
whitespace-only input yields a 400 with no outbound call. -/
theorem claimC2_counterexample :
    analyze (some "t") (some "k") (.str "  ") sampleOkResp (.reply "R") =
      .ok ⟨200, .report "R", [.lookupCall, .genCall], []⟩ := rfl

/-- Claim C2 as amended: only a Python-falsy `company_name` (absent, JSON
`null`, or the empty string — NOT whitespace-only strings) is rejected: the
pipeline issues no outbound call and returns the 400 validation error. -/
theorem claimC2_amended (tok dsk : Option String) (company_name : Json)
    (resp : HttpResult) (gen : GenOutcome)
    (htok : optStrFalsy tok = false) (hdsk : optStrFalsy dsk = false)
    (hname : pyFalsy company_name = true) :
    analyze tok dsk company_name resp gen = .ok ⟨400, .err noNameMsg, [], []⟩ := by
  simp [analyze, htok, hdsk, hname]

/-- Witness for the amended C2: empty-string company name → 400, no calls. -/
theorem claimC2_amended_witness :
    analyze (some "t") (some "k") (.str "") sampleOkResp (.reply "R") =
      .ok ⟨400, .err noNameMsg, [], []⟩ :=
  claimC2_amended (some "t") (some "k") (.str "") sampleOkResp (.reply "R")
    rfl rfl rfl

/-- Claim C3 (confirmed): for a non-empty company name and a JSON-decodable
registry body whose numeric `error_code` equals the OK sentinel `0`,
`get_company_info_from_tianyancha` returns exactly the body's `result`
field (with no diagnostic output). -/
theorem claimC3 (company_name data : Json)
    (hname : pyFalsy company_name = false)
    (hcode : jget data "error_code" = .num 0) :
    get_company_info_from_tianyancha company_name (.ok (.valid data)) =
      .ok (jget data "result", []) := by
  simp [get_company_info_from_tianyancha, tianyanchaBody, hcode, pyEqInt]

/-- Witness for C3, on the spec's scenario: `error_code = 0` with record
`\x7b"name": "测试科技有限公司", "regStatus": "在业"\x7d` → the lookup
returns that record. -/
theorem claimC3_witness :
    get_company_info_from_tianyancha (.str "测试科技有限公司")
      (.ok (.valid (.obj [("error_code", .num 0),
        ("result", .obj [("name", .str "测试科技有限公司"), ("regStatus", .str "在业")])]))) =
      .ok (.obj [("name", .str "测试科技有限公司"), ("regStatus", .str "在业")], []) :=
  claimC3 (.str "测试科技有限公司")
    (.obj [("error_code", .num 0),
      ("result", .obj [("name", .str "测试科技有限公司"), ("regStatus", .str "在业")])])
    rfl rfl

/-- Claim C5 (confirmed): when transport succeeds but the body is not valid
JSON, `response.json()` raises `JSONDecodeError` — a `RequestException`
subclass — which the `except` clause catches: the lookup returns the
failure value `None` with a diagnostic line (`.ok ...`, not an escaping
exception `.error ...`). -/
theorem claimC5 (company_name : Json) (m : String) :
    get_company_info_from_tianyancha company_name (.ok (.invalid m)) =
      .ok (Json.null, ["Tianyancha request failed: " ++ m]) := rfl

/-- Claim C4 — counterexample: on the spec scenario (`error_code = 1`,
`reason = "未查询到匹配结果"`) the lookup's returned value is the bare
failure value `None`; two responses differing only in `reason` produce the
SAME returned value, so the return does not carry the provider reason — the
reason appears only in the printed diagnostic line, which the spec itself
excludes from the contract surface. -/
theorem claimC4_counterexample :
    get_company_info_from_tianyancha (.str "不存在的公司") respReasonA =
      .ok (Json.null, ["Tianyancha API Error: 未查询到匹配结果"]) ∧
    (get_company_info_from_tianyancha (.str "不存在的公司") respReasonA).map Prod.fst =
      (get_company_info_from_tianyancha (.str "不存在的公司") respReasonB).map Prod.fst :=
  ⟨rfl, rfl⟩

/-- Claim C4 as amended: for every JSON body with `error_code != 0` the
lookup returns the failure value `None` — carrying no reason — while the
provider-supplied `reason` (str-formatted; the default `"None"` when
absent) is emitted only on the diagnostic log line; it never returns a
record, and the pipeline surfaces the failure as a 404 whose user-facing
message mentions (contains) the company name. -/
theorem claimC4_amended (tok dsk : Option String) (company_name data : Json)
    (gen : GenOutcome)
    (htok : optStrFalsy tok = false) (hdsk : optStrFalsy dsk = false)
    (hname : pyFalsy company_name = false)
    (hcode : pyEqInt (jget data "error_code") 0 = false) :
    get_company_info_from_tianyancha company_name (.ok (.valid data)) =
      .ok (Json.null, ["Tianyancha API Error: " ++ pyStr (jget data "reason")]) ∧
    analyze tok dsk company_name (.ok (.valid data)) gen =
      .ok ⟨404, .err (tycFailPre ++ pyStr company_name ++ tycFailPost), [.lookupCall],
        ["Tianyancha API Error: " ++ pyStr (jget data "reason")]⟩ ∧
    strContains (tycFailPre ++ pyStr company_name ++ tycFailPost)
      (pyStr company_name) = true := by
  have hlk : get_company_info_from_tianyancha company_name (.ok (.valid data)) =
      .ok (Json.null, ["Tianyancha API Error: " ++ pyStr (jget data "reason")]) := by
    simp [get_company_info_from_tianyancha, tianyanchaBody, hcode]
  refine ⟨hlk, ?_, strContains_mid _ _ _⟩
  have hnull : pyFalsy Json.null = true := rfl
  simp [analyze, htok, hdsk, hname, hlk, hnull]

/-- Witness for the amended C4, on the spec scenario `"不存在的公司"` /
`\x7b"error_code": 1, "reason": "未查询到匹配结果"\x7d` → `None` plus log
line, a 404 whose message contains the company name. -/
theorem claimC4_amended_witness :
    get_company_info_from_tianyancha (.str "不存在的公司") respReasonA =
      .ok (Json.null, ["Tianyancha API Error: 未查询到匹配结果"]) ∧
    analyze (some "t") (some "k") (.str "不存在的公司") respReasonA (.reply "R") =
      .ok ⟨404, .err "从天眼查获取“不存在的公司”的信息失败，请检查公司名称是否正确。",
        [.lookupCall], ["Tianyancha API Error: 未查询到匹配结果"]⟩ ∧
    strContains "从天眼查获取“不存在的公司”的信息失败，请检查公司名称是否正确。"
      "不存在的公司" = true :=
  claimC4_amended (some "t") (some "k") (.str "不存在的公司")
    (.obj [("error_code", .num 1), ("reason", .str "未查询到匹配结果")])
    (.reply "R") rfl rfl rfl rfl

/-- Claim C6 (confirmed): when lookup succeeds (a non-empty record) and the
completion call raises, the pipeline answers 500 with the underlying error
text embedded in the user-facing `错误：...` message; the successful lookup
data is not turned into a success response. -/
theorem claimC6 (tok dsk : Option String) (company_name data : Json)
    (kvs : List (String × Json)) (e : String)
    (htok : optStrFalsy tok = false) (hdsk : optStrFalsy dsk = false)
    (hname : pyFalsy company_name = false)
    (hcode : jget data "error_code" = .num 0)
    (hres : jget data "result" = .obj kvs) (hne : kvs ≠ []) :
    analyze tok dsk company_name (.ok (.valid data)) (.raise e) =
      .ok ⟨500, .err ("错误：调用DeepSeek API时发生错误: " ++ e),
        [.lookupCall, .genCall], ["DeepSeek request failed: " ++ e]⟩ := by
  have hlk : get_company_info_from_tianyancha company_name (.ok (.valid data)) =
      .ok (.obj kvs, []) := by
    simp [get_company_info_from_tianyancha, tianyanchaBody, hcode, pyEqInt, hres]
  have hfal : pyFalsy (.obj kvs) = false := by
    cases kvs with
    | nil => exact absurd rfl hne
    | cons a as => rfl
  have hpre : pyStartsWith ("错误：调用DeepSeek API时发生错误: " ++ e) "错误：" = true :=
    pyStartsWith_append_left "错误：调用DeepSeek API时发生错误: " e "错误：" (by decide)
  simp [analyze, htok, hdsk, hname, hlk, hfal, summarize_info_with_deepseek, hpre]

/-- Witness for C6: lookup succeeds with `sampleRecord`, the completion
call raises `"connection timed out"` → 500 carrying that text. -/
theorem claimC6_witness :
    analyze (some "t") (some "k") (.str "甲")
      (.ok (.valid (.obj [("error_code", .num 0), ("result", sampleRecord)])))
      (.raise "connection timed out") =
      .ok ⟨500, .err "错误：调用DeepSeek API时发生错误: connection timed out",
        [.lookupCall, .genCall], ["DeepSeek request failed: connection timed out"]⟩ :=
  claimC6 (some "t") (some "k") (.str "甲")
    (.obj [("error_code", .num 0), ("result", sampleRecord)])
    [("name", .str "甲"), ("extra", .str "乙")] "connection timed out"
    rfl rfl rfl rfl rfl (List.cons_ne_nil _ _)

/-- Claim C8 (confirmed): a response with the OK sentinel but an empty or
absent `result` is treated by the calling layer as a lookup failure: 404
with the generic failure message naming the company, and the generation
stage is not reached (`calls = [.lookupCall]`). -/
theorem claimC8 (tok dsk : Option String) (company_name data : Json)
    (gen : GenOutcome)
    (htok : optStrFalsy tok = false) (hdsk : optStrFalsy dsk = false)
    (hname : pyFalsy company_name = false)
    (hcode : jget data "error_code" = .num 0)
    (hres : pyFalsy (jget data "result") = true) :
    analyze tok dsk company_name (.ok (.valid data)) gen =
      .ok ⟨404, .err (tycFailPre ++ pyStr company_name ++ tycFailPost),
        [.lookupCall], []⟩ := by
  have hlk : get_company_info_from_tianyancha company_name (.ok (.valid data)) =
      .ok (jget data "result", []) := by
    simp [get_company_info_from_tianyancha, tianyanchaBody, hcode, pyEqInt]
  simp [analyze, htok, hdsk, hname, hlk, hres]

/-- Witness for C8: `error_code = 0` with the `result` field absent → 404
without contacting the completion provider. -/
theorem claimC8_witness :
    analyze (some "t") (some "k") (.str "甲")
      (.ok (.valid (.obj [("error_code", .num 0)]))) (.reply "R") =
      .ok ⟨404, .err "从天眼查获取“甲”的信息失败，请检查公司名称是否正确。",
        [.lookupCall], []⟩ :=
  claimC8 (some "t") (some "k") (.str "甲") (.obj [("error_code", .num 0)])
    (.reply "R") rfl rfl rfl rfl rfl

/-- Claim C10 (confirmed): the assembler classifies the generation result
solely by whether it starts with `错误：`; in particular a successful
completion whose first choice's content itself starts with `错误：` is
reported as a 500 failure carrying that content, not as a report. -/
theorem claimC10 (tok dsk : Option String) (company_name data : Json)
    (kvs : List (String × Json)) (c : String)
    (htok : optStrFalsy tok = false) (hdsk : optStrFalsy dsk = false)
    (hname : pyFalsy company_name = false)
    (hcode : jget data "error_code" = .num 0)
    (hres : jget data "result" = .obj kvs) (hne : kvs ≠ []) :
    analyze tok dsk company_name (.ok (.valid data)) (.reply c) =
      (if pyStartsWith c "错误：" then
        .ok ⟨500, .err c, [.lookupCall, .genCall], []⟩
      else
        .ok ⟨200, .report c, [.lookupCall, .genCall], []⟩) := by
  have hlk : get_company_info_from_tianyancha company_name (.ok (.valid data)) =
      .ok (.obj kvs, []) := by
    simp [get_company_info_from_tianyancha, tianyanchaBody, hcode, pyEqInt, hres]
  have hfal : pyFalsy (.obj kvs) = false := by
    cases kvs with
    | nil => exact absurd rfl hne
    | cons a as => rfl
  by_cases hp : pyStartsWith c "错误：" = true
  · simp [analyze, htok, hdsk, hname, hlk, hfal, summarize_info_with_deepseek, hp]
  · simp [analyze, htok, hdsk, hname, hlk, hfal, summarize_info_with_deepseek, hp]

/-- Witness for C10: the provider replies successfully with content that
itself starts with `错误：` — the pipeline answers 500 with that content as
the error message. -/
theorem claimC10_witness :
    analyze (some "t") (some "k") (.str "甲")
      (.ok (.valid (.obj [("error_code", .num 0), ("result", sampleRecord)])))
      (.reply "错误：模型拒绝生成") =
      .ok ⟨500, .err "错误：模型拒绝生成", [.lookupCall, .genCall], []⟩ :=
  claimC10 (some "t") (some "k") (.str "甲")
    (.obj [("error_code", .num 0), ("result", sampleRecord)])
    [("name", .str "甲"), ("extra", .str "乙")] "错误：模型拒绝生成"
    rfl rfl rfl rfl rfl (List.cons_ne_nil _ _)

set_option maxRecDepth 100000 in
/-- Claim C1 — counterexample: for the concrete record `sampleRecord` the
two-message request is sent (system persona first, then the user-role
prompt), and the record IS serialized with non-ASCII preserved and 2-space
indentation — but that serialized text does not occur anywhere in the
user-role message: `formatted_info` is computed and then never used; the
template interpolates six individual fields instead. -/
theorem claimC1_counterexample :
    (chatRequest sampleRecord).messages =
      [⟨"system", sysMsgContent⟩, ⟨"user", buildPrompt sampleRecord⟩] ∧
    jsonDumps sampleRecord = "\x7b\n  \"name\": \"甲\",\n  \"extra\": \"乙\"\n\x7d" ∧
    strContains (buildPrompt sampleRecord) (jsonDumps sampleRecord) = false :=
  ⟨rfl, rfl, by decide⟩

/-- Claim C1 as amended: for every BusinessRecord the issued request is the
two-message exchange (fixed system persona, then the user-role prompt), and
the user-role instruction is the fixed template with six individual fields
of the record interpolated (`name`, `legalPersonName`, `regCapital`,
`regStatus`, `regLocation`, `industry`, default `N/A`); the JSON
serialization of the record is computed but not embedded — the request
depends on the record only through those six slots, so two records agreeing
on them produce identical requests. -/
theorem claimC1_amended (kvs : List (String × Json)) (c : String) :
    (summarize_info_with_deepseek (.obj kvs) (.reply c)).2.1 =
      some (chatRequest (.obj kvs)) ∧
    (chatRequest (.obj kvs)).messages =
      [⟨"system", sysMsgContent⟩, ⟨"user", buildPrompt (.obj kvs)⟩] ∧
    (chatRequest (.obj kvs)).stream = false ∧
    ∀ info2 : Json, promptSlots (.obj kvs) = promptSlots info2 →
      chatRequest (.obj kvs) = chatRequest info2 := by
  refine ⟨rfl, rfl, rfl, ?_⟩
  intro info2 h
  simp only [promptSlots, List.cons.injEq, and_true] at h
  obtain ⟨h1, h2, h3, h4, h5, h6⟩ := h
  simp [chatRequest, buildPrompt, h1, h2, h3, h4, h5, h6]

/-- Witness for the amended C1: two records that agree on the six template
slots but differ elsewhere (and so have different serializations) produce
the same completion request. -/
theorem claimC1_amended_witness :
    chatRequest (.obj [("name", Json.str "甲")]) =
      chatRequest (.obj [("name", Json.str "甲"), ("capital", Json.num 5)]) :=
  (claimC1_amended [("name", Json.str "甲")] "R").2.2.2
    (.obj [("name", Json.str "甲"), ("capital", Json.num 5)]) rfl

/-- Claim C7 (confirmed): the pipeline is the linear order
Validation → Lookup → Generation → Assembly, terminal on first failure:
the set of helper calls is always `[]`, `[lookup]`, or `[lookup, gen]` in
that order; the generation stage runs only if the lookup stage returned a
truthy record; and a validation or configuration failure means no outbound
stage runs at all. -/
theorem claimC7 (tok dsk : Option String) (company_name : Json)
    (resp : HttpResult) (gen : GenOutcome) (out : AnalyzeOut)
    (h : analyze tok dsk company_name resp gen = .ok out) :
    (out.calls = [] ∨ out.calls = [.lookupCall] ∨
      out.calls = [.lookupCall, .genCall]) ∧
    (StageCall.genCall ∈ out.calls →
      ∃ info llog,
        get_company_info_from_tianyancha company_name resp = .ok (info, llog) ∧
          pyFalsy info = false) ∧
    ((optStrFalsy tok || optStrFalsy dsk) = true ∨ pyFalsy company_name = true →
      out.calls = []) := by
  by_cases hc : (optStrFalsy tok || optStrFalsy dsk) = true
  · have h2 : analyze tok dsk company_name resp gen =
        .ok ⟨500, .err envErrMsg, [], []⟩ := by simp [analyze, hc]
    obtain rfl := Except.ok.inj (h.symm.trans h2)
    exact ⟨Or.inl rfl, fun hmem => by simp at hmem, fun _ => rfl⟩
  by_cases hn : pyFalsy company_name = true
  · have h2 : analyze tok dsk company_name resp gen =
        .ok ⟨400, .err noNameMsg, [], []⟩ := by simp [analyze, hc, hn]
    obtain rfl := Except.ok.inj (h.symm.trans h2)
    exact ⟨Or.inl rfl, fun hmem => by simp at hmem, fun _ => rfl⟩
  obtain ⟨⟨info, llog⟩, hlk⟩ := tianyancha_no_uncaught company_name resp
  by_cases hi : pyFalsy info = true
  · have h2 : analyze tok dsk company_name resp gen =
        .ok ⟨404, .err (tycFailPre ++ pyStr company_name ++ tycFailPost),
          [.lookupCall], llog⟩ := by simp [analyze, hc, hn, hlk, hi]
    obtain rfl := Except.ok.inj (h.symm.trans h2)
    refine ⟨Or.inr (Or.inl rfl), fun hmem => by simp at hmem, fun hd => ?_⟩
    rcases hd with hd | hd
    · exact absurd hd hc
    · exact absurd hd hn
  · have hinfo : pyFalsy info = false := by simpa using hi
    rcases hsum : summarize_info_with_deepseek info gen with ⟨report, req, glog⟩
    by_cases hp : pyStartsWith report "错误：" = true
    · have h2 : analyze tok dsk company_name resp gen =
          .ok ⟨500, .err report, [.lookupCall, .genCall], llog ++ glog⟩ := by
        simp [analyze, hc, hn, hlk, hi, hsum, hp]
      obtain rfl := Except.ok.inj (h.symm.trans h2)
      refine ⟨Or.inr (Or.inr rfl), fun _ => ⟨info, llog, hlk, hinfo⟩, fun hd => ?_⟩
      rcases hd with hd | hd
      · exact absurd hd hc
      · exact absurd hd hn
    · have h2 : analyze tok dsk company_name resp gen =
          .ok ⟨200, .report report, [.lookupCall, .genCall], llog ++ glog⟩ := by
        simp [analyze, hc, hn, hlk, hi, hsum, hp]
      obtain rfl := Except.ok.inj (h.symm.trans h2)
      refine ⟨Or.inr (Or.inr rfl), fun _ => ⟨info, llog, hlk, hinfo⟩, fun hd => ?_⟩
      rcases hd with hd | hd
      · exact absurd hd hc
      · exact absurd hd hn

/-- Witness for C7: on a fully successful run the call list is
`[lookup, gen]`, and the generation stage's membership witnesses a
successful truthy lookup. -/
theorem claimC7_witness :
    ([StageCall.lookupCall, StageCall.genCall] = [] ∨
      [StageCall.lookupCall, StageCall.genCall] = [StageCall.lookupCall] ∨
      [StageCall.lookupCall, StageCall.genCall] =
        [StageCall.lookupCall, StageCall.genCall]) ∧
    ∃ info llog,
      get_company_info_from_tianyancha (.str "甲") sampleOkResp = .ok (info, llog) ∧
        pyFalsy info = false := by
  have h := claimC7 (some "t") (some "k") (.str "甲") sampleOkResp (.reply "R")
    ⟨200, .report "R", [.lookupCall, .genCall], []⟩ rfl
  exact ⟨h.1, h.2.1 (by decide)⟩
